import Mathlib

/-!
Shallow embedding of the encrypted configuration store of this repository
(`backend/database/config.py`, `backend/routes.py`, with a duplicate copy in
`backend/app.py`): the key-material provider `_get_or_create_key`, the store
operations `save_config` / `load_config`, the access gate `requires_db_config`,
and the `configure_database` endpoint.

The filesystem is modelled as an explicit state holding the two artifact files
(`.env.key` and `db_config.encrypted`) plus flags for injected read/write
failures.  External libraries (`cryptography`'s Fernet and PBKDF2, `base64`,
`json`) are modelled by executable stand-ins that keep the properties the code
relies on: authenticated encryption is an injective encoding whose decoder
rejects any bytes not produced with the same key, and JSON (de)serialization of
string-to-string objects is an injective encoding with a matching decoder.
-/

namespace Woosh

/-- File contents (Python `bytes`) are modelled as lists of naturals. -/
abbrev Bytes := List Nat

/-- A JSON object with string keys and string values (a Python dict such as the
configuration record), as an ordered association list — Python dicts preserve
insertion order and `json.dumps` serializes keys in that order. -/
abbrev Record := List (String × String)

/-- The local filesystem state visible to the store: the key artifact
`.env.key`, the configuration artifact `db_config.encrypted` (each `none` when
the file does not exist), and flags injecting a filesystem read or write
failure (an `OSError` raised by the corresponding Python call). -/
structure FS where
  keyFile : Option Bytes
  configFile : Option Bytes
  readError : Bool
  writeError : Bool
  deriving DecidableEq, Repr

/-- Exceptions the embedded Python code can raise. -/
inductive PyError where
  /-- An `OSError` from a filesystem read or write. -/
  | ioError
  /-- A `ValueError` raised by the `Fernet` constructor on an invalid key. -/
  | invalidKey
  /-- An `InvalidToken` raised by `Fernet.decrypt`. -/
  | invalidToken
  /-- A `JSONDecodeError` raised by `json.loads`. -/
  | jsonError
  deriving DecidableEq, Repr

/-! ## Models of the external libraries -/

/-- Model of `json.dumps(s)` for a single string: length-prefixed character
codes.  Injective, since a `Char` is determined by its code. -/
def encodeStr (s : String) : Bytes :=
  s.length :: s.data.map Char.toNat

/-- Decoder matching `encodeStr`: reads one length-prefixed string off the
front of the byte stream, returning the remaining bytes, or `none` when the
stream is too short. -/
def decodeStr : Bytes → Option (String × Bytes)
  | [] => none
  | n :: rest =>
    if n ≤ rest.length then
      some (String.mk ((rest.take n).map Char.ofNat), rest.drop n)
    else none

/-- Model of `json.dumps(config).encode()` on a string-to-string object: the
number of entries followed by the length-prefixed key and value of each entry,
in insertion order.  Injective on `Record`. -/
def jsonDumps (r : Record) : Bytes :=
  r.length :: r.flatMap (fun kv => encodeStr kv.1 ++ encodeStr kv.2)

/-- Decoder for exactly `n` key/value entries; fails on leftover or missing
bytes, modelling a `json.JSONDecodeError` on malformed input. -/
def decodeEntries : Nat → Bytes → Option Record
  | 0, [] => some []
  | 0, _ :: _ => none
  | n + 1, bytes =>
    match decodeStr bytes with
    | none => none
    | some (k, rest1) =>
      match decodeStr rest1 with
      | none => none
      | some (v, rest2) =>
        match decodeEntries n rest2 with
        | none => none
        | some r => some ((k, v) :: r)

/-- Model of `json.loads` on the bytes of a string-to-string object: `none`
models a raised `json.JSONDecodeError`. -/
def jsonLoads (bytes : Bytes) : Option Record :=
  match bytes with
  | [] => none
  | n :: rest => decodeEntries n rest

/-- Model of `Fernet(key).encrypt(plain)`: an authenticated-encryption token.
The model records the key and plaintext lengths followed by the key and the
plaintext; what matters to the code is only that `fernetDecrypt` inverts it
under the same key and rejects everything else. -/
def fernetEncrypt (key plain : Bytes) : Bytes :=
  key.length :: plain.length :: (key ++ plain)

/-- Model of `Fernet(key).decrypt(data)`: succeeds exactly on tokens produced
by `fernetEncrypt` with the same key; `none` models a raised `InvalidToken`
(corrupted, truncated, or wrong-key data fails authentication). -/
def fernetDecrypt (key data : Bytes) : Option Bytes :=
  match data with
  | kl :: pl :: rest =>
    if kl = key.length ∧ rest.take key.length = key ∧ (rest.drop key.length).length = pl
    then some (rest.drop key.length)
    else none
  | _ => none

/-- Model of `base64.urlsafe_b64encode`: a tagged injective byte encoding. -/
def urlsafeB64encode (bs : Bytes) : Bytes := 61 :: bs

/-- Decoder matching `urlsafeB64encode`; `none` models a decoding failure on
bytes that are not valid url-safe base64. -/
def urlsafeB64decode (bs : Bytes) : Option Bytes :=
  match bs with
  | 61 :: rest => some rest
  | _ => none

/-- Model of `PBKDF2HMAC(SHA256, length=32, salt=b'static_salt',
iterations=100000).derive(seed)`: some 32-byte digest of the seed.  Only its
output length and determinism matter to the code. -/
def pbkdf2Sha256StaticSalt (seed : Bytes) : Bytes :=
  (List.range 32).map (fun i => (seed.foldl (fun a b => a + b) 0 + i) % 256)

/-- The validation the `Fernet` constructor performs on its key argument: the
key must be the url-safe base64 encoding of exactly 32 bytes, else it raises
`ValueError`. -/
def fernetKeyValid (key : Bytes) : Bool :=
  match urlsafeB64decode key with
  | some raw => raw.length == 32
  | none => false

/-! ## `DatabaseConfig` (backend/database/config.py) -/

/-- Embedding of `DatabaseConfig._get_or_create_key`.  Here `seed` models the fresh random bytes
`secrets.token_bytes(32)` drawn when no key file exists.  If `.env.key`
exists its bytes are returned verbatim (`key_file.read_bytes()`); otherwise a
key is derived, written to `.env.key`, and returned.  There is no exception
handler, so a filesystem failure propagates. -/
def get_or_create_key (seed : Bytes) (fs : FS) : Except PyError (Bytes × FS) :=
  match fs.keyFile with
  | some bytes => if fs.readError then .error .ioError else .ok (bytes, fs)
  | none =>
    if fs.writeError then .error .ioError
    else
      let key := urlsafeB64encode (pbkdf2Sha256StaticSalt seed)
      .ok (key, { fs with keyFile := some key })

/-- Embedding of `DatabaseConfig.__init__`: runs `_get_or_create_key` and then constructs
`Fernet(self.key)`, which validates the key bytes and raises `ValueError` when
they are not a url-safe base64 encoding of 32 bytes.  No handler guards either
step. -/
def databaseConfigInit (seed : Bytes) (fs : FS) : Except PyError (Bytes × FS) :=
  match get_or_create_key seed fs with
  | .error e => .error e
  | .ok (key, fs1) =>
    if fernetKeyValid key then .ok (key, fs1) else .error .invalidKey

/-- Embedding of `DatabaseConfig.save_config`, final filesystem state: encrypts
`json.dumps(config).encode()` under the store key and writes the ciphertext to
`db_config.encrypted`, replacing any previous contents wholesale. -/
def save_config (key : Bytes) (config : Record) (fs : FS) : FS :=
  { fs with configFile := some (fernetEncrypt key (jsonDumps config)) }

/-- Embedding of `DatabaseConfig.save_config` with its filesystem failure mode: the
`open`/`write` raises `OSError` on a write failure and `save_config` has no
handler, so the error propagates to the caller. -/
def save_config_fallible (key : Bytes) (config : Record) (fs : FS) : Except PyError FS :=
  if fs.writeError then .error .ioError else .ok (save_config key config fs)

/-- The sequence of on-disk states during `save_config`: the code runs
`open(self.CONFIG_FILE, 'wb')` — which truncates the file in place — and then
`f.write(encrypted_data)`.  A concurrent reader can observe the state before
the call, the truncated intermediate state, or the final state. -/
def save_config_states (key : Bytes) (config : Record) (fs : FS) : List FS :=
  [fs, { fs with configFile := some [] }, save_config key config fs]

/-- The body of `DatabaseConfig.load_config` without its `except` handler:
returns `none` when `db_config.encrypted` does not exist, otherwise reads the
file (raising `OSError` on a read failure), decrypts (raising `InvalidToken`
on authentication failure) and parses (raising `JSONDecodeError` on malformed
JSON). -/
def load_config_unguarded (key : Bytes) (fs : FS) : Except PyError (Option Record) :=
  match fs.configFile with
  | none => .ok none
  | some data =>
    if fs.readError then .error .ioError
    else
      match fernetDecrypt key data with
      | none => .error .invalidToken
      | some plain =>
        match jsonLoads plain with
        | none => .error .jsonError
        | some r => .ok (some r)

/-- Embedding of `DatabaseConfig.load_config`: the body wrapped in
`try: ... except Exception: return None` — every failure, of any kind, is
downgraded to `None`. -/
def load_config (key : Bytes) (fs : FS) : Option Record :=
  match load_config_unguarded key fs with
  | .ok r => r
  | .error _ => none

/-! ## Access gate and configuration endpoint (backend/routes.py) -/

/-- The structured JSON error body plus HTTP status code returned by the gate
when no configuration is present. -/
structure ErrorResponse where
  error : String
  status : String
  code : String
  httpStatus : Nat
  deriving DecidableEq, Repr

/-- The response `requires_db_config` short-circuits with: the body
`jsonify(error = 'Database not configured', status = 'error',
code = 'DB_NOT_CONFIGURED')` with HTTP status 400. -/
def dbNotConfiguredResponse : ErrorResponse :=
  { error := "Database not configured"
    status := "error"
    code := "DB_NOT_CONFIGURED"
    httpStatus := 400 }

/-- Python truthiness of a dict: `not config` is true exactly when the dict is
empty. -/
def pyTruthy (r : Record) : Bool := !r.isEmpty

/-- Outcome of a gated operation: either the structured error response from
the gate, or the wrapped operation's own result. -/
inductive GateResult (β : Type) where
  | errorResp (e : ErrorResponse)
  | result (b : β)
  deriving DecidableEq, Repr

/-- Embedding of `requires_db_config` from `backend/routes.py`: the decorated function
calls `db_config.load_config()`; when the result is `None` or falsy it returns
the structured not-configured response, otherwise it calls the wrapped
function `f` on the original request arguments `a` and returns its result. -/
def requires_db_config {α β : Type} (key : Bytes) (fs : FS) (f : α → β) (a : α) :
    GateResult β :=
  match load_config key fs with
  | none => .errorResp dbNotConfiguredResponse
  | some config =>
    if pyTruthy config then .result (f a) else .errorResp dbNotConfiguredResponse

/-- Follows the spec's words, for comparison with `requires_db_config`: a gate
that "passes the loaded record through to the wrapped operation": the wrapped
operation takes the loaded configuration record as an argument. -/
def requires_db_config_specGate {β : Type} (key : Bytes) (fs : FS)
    (f : Record → β) : GateResult β :=
  match load_config key fs with
  | none => .errorResp dbNotConfiguredResponse
  | some config =>
    if pyTruthy config then .result (f config) else .errorResp dbNotConfiguredResponse

/-- The five required fields checked by the `configure_database` route. -/
def required_fields : List String :=
  ["DB_USER", "DB_PASSWORD", "DB_HOST", "DB_PORT", "DB_NAME"]

/-- Embedding of `all(field in data for field in required_fields)`. -/
def hasAllRequiredFields (data : Record) : Bool :=
  required_fields.all (fun fld => data.any (fun kv => kv.1 == fld))

/-- The `test_config` dict the route builds: the five required fields looked
up in the request data, in the route's fixed order. -/
def buildTestConfig (data : Record) : Record :=
  required_fields.map
    (fun fld => (fld, ((data.find? (fun kv => kv.1 == fld)).map Prod.snd).getD ""))

/-- Outcome of the `configure_database` route. -/
inductive ConfigureResult where
  /-- HTTP 400, `'Missing required fields'`. -/
  | missingFields
  /-- HTTP 400, `'Failed to connect to database: ...'` (the `except` branch). -/
  | connectFailed
  /-- HTTP 200, `'Database configuration saved successfully'`. -/
  | success
  deriving DecidableEq, Repr

/-- The `configure_database` route (`POST /api/v1/database/config`): checks
the five required fields are present, builds `test_config`, opens and closes a
test connection (the external database collaborator, modelled by the predicate
`connOk`), and only then persists via `save_config`.  Any exception in the
`try` block — a failed connection test or a filesystem write failure inside
`save_config` — is caught and reported as a connect failure, leaving the
stored configuration unchanged. -/
def configure_database (key : Bytes) (connOk : Record → Bool) (data : Record)
    (fs : FS) : ConfigureResult × FS :=
  if !hasAllRequiredFields data then (.missingFields, fs)
  else
    let test_config := buildTestConfig data
    if connOk test_config then
      match save_config_fallible key test_config fs with
      | .ok fs1 => (.success, fs1)
      | .error _ => (.connectFailed, fs)
    else (.connectFailed, fs)

/-! ## Concrete values for witnesses and counterexamples -/

/-- An empty healthy filesystem: no key file, no configuration file, no
injected failures. -/
def fs0 : FS := { keyFile := none, configFile := none, readError := false, writeError := false }

/-- A concrete random seed standing in for `secrets.token_bytes(32)`. -/
def demoSeed : Bytes := [7, 3, 1]

/-- The concrete store key derived from `demoSeed`, as `_get_or_create_key`
derives it on first call. -/
def demoKey : Bytes := urlsafeB64encode (pbkdf2Sha256StaticSalt demoSeed)

/-- The spec's concrete configuration record:
`{"DB_USER": "a", "DB_PASSWORD": "b", "DB_HOST": "h", "DB_PORT": "3306", "DB_NAME": "d"}`. -/
def demoR1 : Record :=
  [("DB_USER", "a"), ("DB_PASSWORD", "b"), ("DB_HOST", "h"),
   ("DB_PORT", "3306"), ("DB_NAME", "d")]

/-- A second concrete configuration record, distinct from `demoR1` in every
field value. -/
def demoR2 : Record :=
  [("DB_USER", "u2"), ("DB_PASSWORD", "p2"), ("DB_HOST", "h2"),
   ("DB_PORT", "5432"), ("DB_NAME", "n2")]

/-- A store state with no configuration file and a corrupted configuration
file standing next to it in witnesses: garbage bytes in the artifact. -/
def fsGarbage : FS :=
  { keyFile := none, configFile := some [9, 9, 9], readError := false, writeError := false }

/-- The store state after the first `save_config` of `demoR1` on `fs0`. -/
def fsOld : FS := save_config demoKey demoR1 fs0

/-- The intermediate on-disk state while `save_config` of a second record is
in progress: `open(..., 'wb')` has truncated `db_config.encrypted`. -/
def fsMid : FS := { fsOld with configFile := some [] }

/-- A state whose filesystem denies reads, with both artifacts present. -/
def fsReadErr : FS :=
  { keyFile := some demoKey, configFile := some [1, 2, 3], readError := true, writeError := false }

/-- A state whose filesystem denies writes. -/
def fsWriteErr : FS :=
  { keyFile := none, configFile := none, readError := false, writeError := true }

/-- A state whose key artifact holds bytes that are not a valid Fernet key. -/
def fsBadKey : FS :=
  { keyFile := some [0], configFile := none, readError := false, writeError := false }

/-- The store state after the key file has been created from `demoSeed`. -/
def fsKey : FS :=
  { keyFile := some demoKey, configFile := none, readError := false, writeError := false }

/-! ## Helper lemmas: the codec round trips -/

/-- The decoder `decodeStr` inverts `encodeStr` and leaves the trailing bytes intact. -/
theorem decodeStr_encodeStr (s : String) (t : Bytes) :
    decodeStr (encodeStr s ++ t) = some (s, t) := by
  have hlen : s.length = (s.data.map Char.toNat).length := by simp
  simp only [encodeStr, List.cons_append, decodeStr]
  rw [if_pos]
  · rw [hlen, List.take_left, List.drop_left, List.map_map]
    rw [show (Char.ofNat ∘ Char.toNat) = id from funext Char.ofNat_toNat, List.map_id]
  · rw [hlen]
    simp

/-- The decoder `decodeEntries` inverts the entry serialization of `jsonDumps`. -/
theorem decodeEntries_jsonBody (r : Record) :
    decodeEntries r.length (r.flatMap (fun kv => encodeStr kv.1 ++ encodeStr kv.2)) = some r := by
  induction r with
  | nil => rfl
  | cons kv tl ih =>
    simp only [List.flatMap_cons, List.length_cons, List.append_assoc]
    simp [decodeEntries, decodeStr_encodeStr, ih]

/-- The model of `json.loads` inverts that of `json.dumps` on every record. -/
theorem jsonLoads_jsonDumps (r : Record) : jsonLoads (jsonDumps r) = some r := by
  simp [jsonLoads, jsonDumps, decodeEntries_jsonBody]

/-- Decryption under the same key inverts encryption. -/
theorem fernetDecrypt_fernetEncrypt (key plain : Bytes) :
    fernetDecrypt key (fernetEncrypt key plain) = some plain := by
  have h1 := List.take_left key plain
  have h2 := List.drop_left key plain
  simp [fernetEncrypt, fernetDecrypt, h1, h2]

/-- Loading recovers the record written by `save_config` whenever the
filesystem read succeeds. -/
theorem load_config_save_config (key : Bytes) (R : Record) (fs : FS)
    (hr : fs.readError = false) :
    load_config key (save_config key R fs) = some R := by
  simp [load_config, load_config_unguarded, save_config, hr,
    fernetDecrypt_fernetEncrypt, jsonLoads_jsonDumps]

/-! ## Claim theorems -/

/-- Claim C1: for every valid configuration record, `load_config` immediately
after `save_config R` returns exactly `R`; and after `save_config R1` followed
by `save_config R2`, the stored state is identical to one where only `R2` was
ever saved, and `load_config` returns exactly `R2` — no field of `R1`
remains. -/
theorem save_load_round_trip (key : Bytes) (R1 R2 : Record) (fs : FS)
    (hr : fs.readError = false) :
    load_config key (save_config key R1 fs) = some R1 ∧
    save_config key R2 (save_config key R1 fs) = save_config key R2 fs ∧
    load_config key (save_config key R2 (save_config key R1 fs)) = some R2 := by
  refine ⟨load_config_save_config key R1 fs hr, ?_, ?_⟩
  · simp [save_config]
  · exact load_config_save_config key R2 _ (by simp [save_config, hr])

/-- Witness for C1 at the spec's concrete record and a second record. -/
theorem save_load_round_trip_witness :
    load_config demoKey (save_config demoKey demoR1 fs0) = some demoR1 ∧
    save_config demoKey demoR2 (save_config demoKey demoR1 fs0) =
      save_config demoKey demoR2 fs0 ∧
    load_config demoKey (save_config demoKey demoR2 (save_config demoKey demoR1 fs0)) =
      some demoR2 :=
  save_load_round_trip demoKey demoR1 demoR2 fs0 rfl

/-- Claim C2: `load_config` never raises — when the configuration artifact
does not exist it returns `none` (Absent), and whenever its unguarded body
raises any error (filesystem failure, failed authenticated decryption, failed
JSON parsing) the handler downgrades the outcome to `none` instead of
propagating the error. -/
theorem load_config_fail_safe (key : Bytes) (fs : FS) :
    (fs.configFile = none → load_config key fs = none) ∧
    (∀ e : PyError, load_config_unguarded key fs = .error e → load_config key fs = none) := by
  constructor
  · intro h
    simp [load_config, load_config_unguarded, h]
  · intro e h
    simp [load_config, h]

/-- Witness for C2: a missing artifact and a garbage artifact both load as
`none`; the garbage bytes make the unguarded body raise `InvalidToken`. -/
theorem load_config_fail_safe_witness :
    load_config_unguarded demoKey fsGarbage = .error .invalidToken ∧
    load_config demoKey fsGarbage = none ∧
    load_config demoKey fs0 = none := by
  have hg : load_config_unguarded demoKey fsGarbage = .error .invalidToken := rfl
  exact ⟨hg, (load_config_fail_safe demoKey fsGarbage).2 _ hg,
    (load_config_fail_safe demoKey fs0).1 rfl⟩

/-- Claim C3: whenever `load_config` returns Absent, the gate returns the
structured not-configured response — the distinct `DB_NOT_CONFIGURED` error
kind — and its result does not depend on the wrapped operation at all, so the
wrapped operation is invoked zero times. -/
theorem gate_short_circuit {α β : Type} (key : Bytes) (fs : FS)
    (f g : α → β) (a b : α) (h : load_config key fs = none) :
    requires_db_config key fs f a = .errorResp dbNotConfiguredResponse ∧
    requires_db_config key fs f a = requires_db_config key fs g b := by
  simp [requires_db_config, h]

/-- Witness for C3 on the empty filesystem with two different wrapped
operations. -/
theorem gate_short_circuit_witness :
    requires_db_config demoKey fs0 (fun n : Nat => n + 1) 0 =
      .errorResp dbNotConfiguredResponse ∧
    requires_db_config demoKey fs0 (fun n : Nat => n + 1) 0 =
      requires_db_config demoKey fs0 (fun n : Nat => n * 2) 5 :=
  gate_short_circuit demoKey fs0 (fun n : Nat => n + 1) (fun n : Nat => n * 2) 0 5 rfl

/-- Claim C5: two sequential calls of `_get_or_create_key` with no
intervening deletion return bit-identical key bytes; when the key file already
exists its bytes are returned verbatim and the filesystem is left untouched,
so the key file is written at most once, on the first call. -/
theorem obtain_key_idempotent (seed1 seed2 : Bytes) (fs fs1 : FS) (k1 : Bytes)
    (hr : fs.readError = false) (hw : fs.writeError = false)
    (h1 : get_or_create_key seed1 fs = .ok (k1, fs1)) :
    get_or_create_key seed2 fs1 = .ok (k1, fs1) ∧
    fs1.keyFile = some k1 ∧
    (∀ k : Bytes, fs.keyFile = some k → fs1 = fs ∧ k1 = k) := by
  cases hkf : fs.keyFile with
  | some b =>
    have hred : get_or_create_key seed1 fs = .ok (b, fs) := by
      simp [get_or_create_key, hkf, hr]
    rw [hred] at h1
    obtain ⟨hb, hfs⟩ : b = k1 ∧ fs = fs1 := by simpa using h1
    subst hb
    subst hfs
    refine ⟨?_, hkf, ?_⟩
    · simp [get_or_create_key, hkf, hr]
    · intro k hk2
      have hbk : b = k := by simpa using hk2
      exact ⟨rfl, hbk⟩
  | none =>
    have hred : get_or_create_key seed1 fs =
        .ok (urlsafeB64encode (pbkdf2Sha256StaticSalt seed1),
          { fs with keyFile := some (urlsafeB64encode (pbkdf2Sha256StaticSalt seed1)) }) := by
      simp [get_or_create_key, hkf, hw]
    rw [hred] at h1
    obtain ⟨hk, hfs⟩ : urlsafeB64encode (pbkdf2Sha256StaticSalt seed1) = k1 ∧
        { fs with keyFile := some (urlsafeB64encode (pbkdf2Sha256StaticSalt seed1)) } = fs1 := by
      simpa using h1
    subst hk
    subst hfs
    refine ⟨?_, rfl, ?_⟩
    · simp [get_or_create_key, hr]
    · intro k hk2
      exact absurd hk2 (by simp)

/-- Witness for C5: the first call on the empty filesystem creates the key
file; the second call, with a different random seed, returns the identical
bytes and leaves the state unchanged. -/
theorem obtain_key_idempotent_witness :
    get_or_create_key [5] fsKey = .ok (demoKey, fsKey) ∧
    fsKey.keyFile = some demoKey :=
  ⟨(obtain_key_idempotent demoSeed [5] fs0 fsKey demoKey rfl rfl rfl).1,
   (obtain_key_idempotent demoSeed [5] fs0 fsKey demoKey rfl rfl rfl).2.1⟩

/-- Counterexample to claim C4 as stated: `save_config` opens the artifact
with mode `wb`, truncating it in place before writing.  At the intermediate
state `fsMid` — a member of the state sequence of a save of `demoR2` over a
store holding `demoR1` — `load_config` returns `none`, which is neither the
fully-old record `demoR1` nor the fully-new record `demoR2`, so the write is
not a single atomic replace. -/
theorem save_not_atomic_counterexample :
    fsMid ∈ save_config_states demoKey demoR2 fsOld ∧
    load_config demoKey fsOld = some demoR1 ∧
    load_config demoKey (save_config demoKey demoR2 fsOld) = some demoR2 ∧
    load_config demoKey fsMid = none ∧
    load_config demoKey fsMid ≠ some demoR1 ∧
    load_config demoKey fsMid ≠ some demoR2 := by
  refine ⟨?_, ?_, ?_, ?_, ?_, ?_⟩ <;> decide

/-- Claim C4 amended: during an in-progress `save_config` a concurrent
`load_config` observes the old record, the new record, or Absent (the
truncated intermediate file fails authenticated decryption and is downgraded
to `none`); it never observes a record mixing old and new fields and never
propagates a decode error. -/
theorem load_during_save (key : Bytes) (R1 R2 : Record) (fs : FS)
    (hr : fs.readError = false) :
    ∀ s ∈ save_config_states key R2 (save_config key R1 fs),
      load_config key s = some R1 ∨ load_config key s = some R2 ∨
      load_config key s = none := by
  intro s hs
  simp only [save_config_states, List.mem_cons, List.not_mem_nil, or_false] at hs
  rcases hs with h | h | h
  · subst h
    exact .inl (load_config_save_config key R1 fs hr)
  · subst h
    refine .inr (.inr ?_)
    simp [load_config, load_config_unguarded, save_config, hr, fernetDecrypt]
  · subst h
    exact .inr (.inl (load_config_save_config key R2 _ (by simp [save_config, hr])))

/-- Witness for the amended C4 at the truncated intermediate state. -/
theorem load_during_save_witness :
    load_config demoKey fsMid = some demoR1 ∨ load_config demoKey fsMid = some demoR2 ∨
    load_config demoKey fsMid = none :=
  load_during_save demoKey demoR1 demoR2 fs0 rfl fsMid (by decide)

/-- Formalization of claim C6 as stated, at the demo key: every
record-consuming operation `g` could be installed behind the gate as some
wrapped function `f` such that, whenever `load_config` returns a present
truthy record `r`, the gate returns `g` applied to `r` — i.e. the gate
"passes the loaded record through to the wrapped operation". -/
def gatePassesRecordThrough : Prop :=
  ∀ g : Record → Record, ∃ f : Unit → Record, ∀ (fs : FS) (r : Record),
    load_config demoKey fs = some r → pyTruthy r = true →
    requires_db_config demoKey fs f () = .result (g r)

/-- Counterexample to claim C6 as stated: the gate calls the wrapped function
on its original arguments only, so its output is independent of which record
is stored; two stores holding the distinct records `demoR1` and `demoR2`
force a contradiction for the identity operation. -/
theorem gate_does_not_pass_record : ¬ gatePassesRecordThrough := by
  intro h
  obtain ⟨f, hf⟩ := h id
  have hA : load_config demoKey (save_config demoKey demoR1 fs0) = some demoR1 :=
    load_config_save_config demoKey demoR1 fs0 rfl
  have hB : load_config demoKey (save_config demoKey demoR2 fs0) = some demoR2 :=
    load_config_save_config demoKey demoR2 fs0 rfl
  have h1 := hf _ demoR1 hA (by decide)
  have h2 := hf _ demoR2 hB (by decide)
  simp only [requires_db_config, hA, hB] at h1 h2
  rw [if_pos (by decide)] at h1 h2
  simp only [GateResult.result.injEq, id] at h1 h2
  rw [h1] at h2
  exact absurd h2 (by decide)

/-- Claim C6 amended: when `load_config` returns a present truthy record, the
gate invokes the wrapped operation with its original request arguments — the
loaded record itself is not forwarded (gated handlers reload it themselves) —
and returns the wrapped operation's result unchanged. -/
theorem gate_invokes_wrapped_unchanged {α β : Type} (key : Bytes)
    (fs : FS) (f : α → β) (a : α) (r : Record)
    (h : load_config key fs = some r) (ht : pyTruthy r = true) :
    requires_db_config key fs f a = .result (f a) := by
  simp [requires_db_config, h, ht]

/-- Witness for the amended C6: a configured store runs the wrapped operation
on its original argument and hands back its result unchanged. -/
theorem gate_invokes_wrapped_unchanged_witness :
    requires_db_config demoKey (save_config demoKey demoR1 fs0)
      (fun n : Nat => n + 1) 41 = .result 42 :=
  gate_invokes_wrapped_unchanged demoKey (save_config demoKey demoR1 fs0)
    (fun n : Nat => n + 1) 41 demoR1
    (load_config_save_config demoKey demoR1 fs0 rfl) (by decide)

/-- Counterexample to claim C7 as stated: at a concrete state whose
filesystem denies reads while the configuration artifact exists, the body of
`load_config` raises an `OSError`, yet `load_config` returns `none` — the
catch-all handler silently swallows the filesystem failure instead of
surfacing any error to the caller. -/
theorem load_swallows_read_error_counterexample :
    load_config_unguarded demoKey fsReadErr = .error .ioError ∧
    load_config demoKey fsReadErr = none :=
  ⟨rfl, rfl⟩

/-- Claim C7 amended: `_get_or_create_key` and `save_config` propagate a
filesystem read or write failure to the caller (as the raised exception — the
code defines no dedicated StorageError type), but `load_config` does not: any
failure its body raises, a filesystem read failure included, is swallowed and
`load_config` returns Absent. -/
theorem storage_errors_surfaced_except_load (seed key : Bytes) (config : Record)
    (fs : FS) (k : Bytes) :
    (fs.writeError = true → save_config_fallible key config fs = .error .ioError) ∧
    (fs.keyFile = none → fs.writeError = true →
      get_or_create_key seed fs = .error .ioError) ∧
    (fs.keyFile = some k → fs.readError = true →
      get_or_create_key seed fs = .error .ioError) ∧
    (∀ e : PyError, load_config_unguarded key fs = .error e → load_config key fs = none) := by
  refine ⟨?_, ?_, ?_, ?_⟩
  · intro hw
    simp [save_config_fallible, hw]
  · intro hk hw
    simp [get_or_create_key, hk, hw]
  · intro hk hrr
    simp [get_or_create_key, hk, hrr]
  · intro e h
    simp [load_config, h]

/-- Witness for the amended C7 at the failing filesystems. -/
theorem storage_errors_surfaced_except_load_witness :
    save_config_fallible demoKey demoR1 fsWriteErr = .error .ioError ∧
    get_or_create_key demoSeed fsWriteErr = .error .ioError ∧
    get_or_create_key demoSeed fsReadErr = .error .ioError ∧
    load_config demoKey fsReadErr = none :=
  ⟨(storage_errors_surfaced_except_load demoSeed demoKey demoR1 fsWriteErr demoKey).1 rfl,
   (storage_errors_surfaced_except_load demoSeed demoKey demoR1 fsWriteErr demoKey).2.1 rfl rfl,
   (storage_errors_surfaced_except_load demoSeed demoKey demoR1 fsReadErr demoKey).2.2.1 rfl rfl,
   (storage_errors_surfaced_except_load demoSeed demoKey demoR1 fsReadErr demoKey).2.2.2
     .ioError rfl⟩

/-- Claim C8: the save path (`POST /api/v1/database/config`) validates
nothing about record contents beyond the presence of the five required
fields: a request missing any of them is rejected with the missing-fields
response and the stored state is untouched, while any request carrying all
five fields — whatever their values — is persisted exactly as the five-field
record built from it, once the caller-side reachability test passes; on a
canonical five-field mapping that record is the mapping itself, unchanged. -/
theorem configure_database_field_validation (key : Bytes) (connOk : Record → Bool)
    (data : Record) (fs : FS) :
    (hasAllRequiredFields data = false →
      configure_database key connOk data fs = (.missingFields, fs)) ∧
    (hasAllRequiredFields data = true → connOk (buildTestConfig data) = true →
      fs.writeError = false →
      configure_database key connOk data fs =
        (.success, save_config key (buildTestConfig data) fs)) ∧
    (∀ u p hs prt nm : String,
      buildTestConfig
        [("DB_USER", u), ("DB_PASSWORD", p), ("DB_HOST", hs),
         ("DB_PORT", prt), ("DB_NAME", nm)] =
        [("DB_USER", u), ("DB_PASSWORD", p), ("DB_HOST", hs),
         ("DB_PORT", prt), ("DB_NAME", nm)]) := by
  refine ⟨?_, ?_, ?_⟩
  · intro hmiss
    simp [configure_database, hmiss]
  · intro hall hconn hw
    simp [configure_database, hall, hconn, save_config_fallible, hw]
  · intro u p hs prt nm
    simp [buildTestConfig, required_fields, List.find?]

/-- Witness for C8: a one-field request is rejected leaving the store
untouched; the spec's concrete five-field record is persisted as given. -/
theorem configure_database_field_validation_witness :
    configure_database demoKey (fun _ => true) [("DB_USER", "a")] fs0 =
      (.missingFields, fs0) ∧
    configure_database demoKey (fun _ => true) demoR1 fs0 =
      (.success, save_config demoKey (buildTestConfig demoR1) fs0) ∧
    buildTestConfig demoR1 = demoR1 :=
  ⟨(configure_database_field_validation demoKey (fun _ => true) [("DB_USER", "a")] fs0).1
     (by decide),
   (configure_database_field_validation demoKey (fun _ => true) demoR1 fs0).2.1
     (by decide) rfl rfl,
   (configure_database_field_validation demoKey (fun _ => true) demoR1 fs0).2.2
     "a" "b" "h" "3306" "d"⟩

/-- Claim C9: the configuration artifact can hold a valid encryption of the
empty JSON mapping — produced by `save_config` of the empty record, which
validates nothing — and then `load_config` returns that present record, yet
the gate still short-circuits with the not-configured response: `if not
config` tests Python truthiness, not mere absence. -/
theorem gate_rejects_falsy_record {β : Type} (f : Unit → β) :
    load_config demoKey (save_config demoKey [] fs0) = some [] ∧
    requires_db_config demoKey (save_config demoKey [] fs0) f () =
      .errorResp dbNotConfiguredResponse := by
  have h : load_config demoKey (save_config demoKey [] fs0) = some [] :=
    load_config_save_config demoKey [] fs0 rfl
  refine ⟨h, ?_⟩
  simp [requires_db_config, h, pyTruthy]

/-- Claim C10: when the key artifact exists but holds bytes that are not a
url-safe base64 encoding of 32 bytes, `_get_or_create_key` returns those
bytes verbatim without validation and the `DatabaseConfig` constructor then
fails with the unguarded `ValueError` from the `Fernet` constructor — the
fail-safe Absent policy of `load_config` does not cover a corrupted key
file. -/
theorem corrupted_key_fails_init (seed : Bytes) (fs : FS) (bad : Bytes)
    (hk : fs.keyFile = some bad) (hrr : fs.readError = false)
    (hv : fernetKeyValid bad = false) :
    get_or_create_key seed fs = .ok (bad, fs) ∧
    databaseConfigInit seed fs = .error .invalidKey := by
  have h1 : get_or_create_key seed fs = .ok (bad, fs) := by
    simp [get_or_create_key, hk, hrr]
  refine ⟨h1, ?_⟩
  simp [databaseConfigInit, h1, hv]

/-- Witness for C10: a key file holding the single byte 0 is returned
verbatim and makes construction fail with `ValueError`. -/
theorem corrupted_key_fails_init_witness :
    get_or_create_key demoSeed fsBadKey = .ok ([0], fsBadKey) ∧
    databaseConfigInit demoSeed fsBadKey = .error .invalidKey :=
  corrupted_key_fails_init demoSeed fsBadKey [0] rfl rfl rfl

end Woosh
